import Mathlib

/-!
Verification of the react-data-cache engine against its specification.

The definitions below are a shallow embedding of the cache engine:
the single-key data cache (src/cache.ts, src/prefetch.ts, src/useData.ts),
the retry manager (src/examples/enhanced-usage.tsx), the infinite cache
(src/infiniteCache.ts) and the universal infinite query adapters
(src/infinite-scroll/useUniversalInfiniteQuery.ts).

Payload values are modelled by a single type parameter covering both data
and error objects, matching the untyped JS payload field.  Asynchronous
fetches are split into a synchronous start step and a resolution step that
takes the fetch outcome as a parameter; the cooperative single-threaded
model means a run-to-completion operation sees no interleaving between its
own steps.  Notifications (window.dispatchEvent) are counted in the state.
-/

namespace ReactDataCache

/-! ## Single-key data cache: DataState and prefetchData (src/types.ts, src/prefetch.ts) -/

inductive Status where
  | idle
  | loading
  | success
  | error
  | isRefetching
deriving DecidableEq, Repr

structure DataState (α : Type) where
  status : Status
  payload : Option α
  controller : Option Nat := none
  timestamp : Option Nat := none
  optimisticData : Option α := none
deriving DecidableEq, Repr

/-- The observable state for a single cache key: the map entry for that key,
the set of abort-signalled controller ids, and the number of dataFetched
events dispatched so far. -/
structure CacheSt (α : Type) where
  entry : Option (DataState α)
  aborted : List Nat
  notifications : Nat
deriving DecidableEq, Repr

/-- Outcome of an awaited fetch promise: fulfilled with data, rejected with a
non-abort error, or rejected with an error whose name is AbortError. -/
inductive FetchOutcome (α : Type) where
  | ok (d : α)
  | err (e : α)
  | abortErr
deriving DecidableEq, Repr

/-- Synchronous prefix of prefetchData (src/prefetch.ts lines 9-22): abort the
existing controller when the entry is in loading status, then overwrite the
entry with a fresh loading (or isRefetching) state carrying a new controller
and the current time as timestamp. -/
def prefetchDataStart (refetching : Bool) (ctrlId now : Nat) (s : CacheSt α) : CacheSt α :=
  let aborted' :=
    match s.entry with
    | some st =>
      match st.controller with
      | some c => if st.status = Status.loading then c :: s.aborted else s.aborted
      | none => s.aborted
    | none => s.aborted
  { entry := some { status := if refetching then Status.isRefetching else Status.loading,
                    payload := none, controller := some ctrlId, timestamp := some now },
    aborted := aborted',
    notifications := s.notifications }

/-- Resolution of prefetchData (src/prefetch.ts lines 24-42): the then branch
writes a success entry, the catch branch writes an error entry unless the
error name is AbortError, and the finally branch always dispatches a
dataFetched event.  No check relates the resolving request to the currently
registered controller. -/
def prefetchDataResolve (out : FetchOutcome α) (now : Nat) (s : CacheSt α) : CacheSt α :=
  let s' :=
    match out with
    | FetchOutcome.ok d =>
      { s with entry := some { status := Status.success, payload := some d,
                               controller := none, timestamp := some now,
                               optimisticData := none } }
    | FetchOutcome.err e =>
      { s with entry := some { status := Status.error, payload := some e,
                               controller := none, timestamp := none,
                               optimisticData := none } }
    | FetchOutcome.abortErr => s
  { s' with notifications := s'.notifications + 1 }

/-! ## Staleness (src/useData.ts) -/

def defaultStaleTime : Int := 1000 * 5

/-- The staleness test of useData (src/useData.ts lines 22-24):
Date.now() - (data.timestamp or 0) > (options.staleTime or default). -/
def isStale (timestamp : Option Int) (staleTime : Option Int) (now : Int) : Bool :=
  decide (now - timestamp.getD 0 > staleTime.getD defaultStaleTime)

/-! ## JS objects, spread merge, and the read path (src/cache.ts) -/

/-- A JS object restricted to number-valued fields, as used by the optimistic
update scenarios. -/
abbrev JsObj : Type := List (String × Int)

/-- JS object spread of two objects: keys of the first in order with values
overridden by the second, followed by the new keys of the second. -/
def spread (a b : JsObj) : JsObj :=
  a.map (fun kv =>
    match b.find? (fun kv2 => kv2.1 == kv.1) with
    | some kv2 => (kv.1, kv2.2)
    | none => kv)
  ++ b.filter (fun kv2 => ! a.any (fun kv => kv.1 == kv2.1))

def getField (o : JsObj) (k : String) : Option Int :=
  (o.find? (fun kv => kv.1 == k)).map (fun kv => kv.2)

/-- The data field produced by formatDataResponse (src/cache.ts lines 54-60):
optimisticData preferred over payload in success and isRefetching statuses,
null otherwise.  JS truthiness agrees with presence here because object
values are always truthy. -/
def formatDataResponseData (st : DataState α) : Option α :=
  match st.status with
  | Status.success =>
    (match st.optimisticData with
     | some o => some o
     | none => st.payload)
  | Status.isRefetching =>
    (match st.optimisticData with
     | some o => some o
     | none => st.payload)
  | _ => none

/-! ## Optimistic updates (src/cache.ts lines 71-107) -/

/-- The synchronous part of updateOptimistically: when the entry status is
success, overlay optimisticData with the spread of payload and patch, set
status isRefetching, and dispatch a notification; a no-op otherwise. -/
def updateOptimisticallyApply (patch : JsObj) (s : CacheSt JsObj) : CacheSt JsObj :=
  match s.entry with
  | some st =>
    if st.status = Status.success then
      let updatedData := spread (st.payload.getD []) patch
      { entry := some { st with optimisticData := some updatedData,
                                status := Status.isRefetching },
        aborted := s.aborted,
        notifications := s.notifications + 1 }
    else s
  | none => s

/-- The then branch of the mutation promise inside updateOptimistically
(src/cache.ts lines 83-92): clear optimisticData and set status success. -/
def updateOptimisticallyFulfilled (s : CacheSt α) : CacheSt α :=
  match s.entry with
  | some st =>
    { s with entry := some { st with optimisticData := none, status := Status.success } }
  | none => s

/-- The catch branch of the mutation promise inside updateOptimistically
(src/cache.ts lines 93-103): clear optimisticData and set status success. -/
def updateOptimisticallyRejected (s : CacheSt α) : CacheSt α :=
  match s.entry with
  | some st =>
    { s with entry := some { st with optimisticData := none, status := Status.success } }
  | none => s

/-! ## RetryManager (src/examples/enhanced-usage.tsx lines 489-532) -/

inductive RetryErr (ε : Type) where
  | thrown (e : ε)
  | maxReached
deriving DecidableEq, Repr

/-- Trace of one RetryManager.execute run: the surfaced result, the
onError calls in order with their attempt numbers, and the sleeps taken
between attempts in order. -/
structure RetryTrace (ε α : Type) where
  result : Except (RetryErr ε) α
  errorCalls : List (ε × Nat)
  delays : List Nat

/-- The while loop of RetryManager.execute, with fuel equal to
attempts - currentAttempt (the loop runs while currentAttempt < attempts).
The fetch function is indexed by the value of currentAttempt at call time. -/
def retryGo (fn : Nat → Except ε α) (attempts baseDelay : Nat) (expo : Bool) :
    Nat → Nat → RetryTrace ε α
  | 0, _ => { result := Except.error RetryErr.maxReached, errorCalls := [], delays := [] }
  | fuel + 1, current =>
    match fn current with
    | Except.ok v => { result := Except.ok v, errorCalls := [], delays := [] }
    | Except.error e =>
      let ca := current + 1
      if attempts ≤ ca then
        { result := Except.error (RetryErr.thrown e), errorCalls := [(e, ca)], delays := [] }
      else
        let d := if expo then baseDelay * 2 ^ (ca - 1) else baseDelay
        let rest := retryGo fn attempts baseDelay expo fuel ca
        { result := rest.result, errorCalls := (e, ca) :: rest.errorCalls,
          delays := d :: rest.delays }

def retryExecute (fn : Nat → Except ε α) (attempts baseDelay : Nat) (expo : Bool) :
    RetryTrace ε α :=
  retryGo fn attempts baseDelay expo attempts 0

/-! ## Infinite cache (src/infiniteCache.ts) -/

inductive IStatus where
  | idle
  | loading
  | success
  | error
  | fetchingNextPage
  | fetchingPreviousPage
deriving DecidableEq, Repr

structure InfiniteDataState (α π : Type) where
  status : IStatus
  pages : List α
  pageParams : List π
  controller : Option Nat := none
  timestamp : Option Nat := none
deriving DecidableEq, Repr

structure InfCacheSt (α π : Type) where
  entry : Option (InfiniteDataState α π)
  aborted : List Nat
  notifications : Nat
deriving DecidableEq, Repr

inductive Dir where
  | next
  | previous
deriving DecidableEq, Repr

/-- One run-to-completion execution of fetchInfinitePage
(src/infiniteCache.ts lines 42-111).  Early returns (missing entry, a page
fetch already in flight, resolver yielding undefined) change nothing and
dispatch nothing.  Otherwise the prior controller is aborted, the entry is
put in the transitional fetching status with a fresh controller, and the
awaited outcome is applied: success appends the page and its param at the
tail (next) or head (previous); a non-abort error replaces pages with the
one-element error list leaving pageParams untouched; an abort rejection
writes nothing further.  The finally block dispatches one event. -/
def fetchInfinitePage (dir : Dir) (getPageParam : Option α → List α → Option π)
    (outcome : FetchOutcome α) (ctrlId now : Nat) (s : InfCacheSt α π) : InfCacheSt α π :=
  match s.entry with
  | none => s
  | some cur =>
    if cur.status = IStatus.fetchingNextPage ∨ cur.status = IStatus.fetchingPreviousPage then s
    else
      let pageParam :=
        match dir with
        | Dir.next => getPageParam cur.pages.getLast? cur.pages
        | Dir.previous => getPageParam cur.pages.head? cur.pages
      match pageParam with
      | none => s
      | some pp =>
        let aborted' :=
          match cur.controller with
          | some c => c :: s.aborted
          | none => s.aborted
        let fetchingStatus :=
          match dir with
          | Dir.next => IStatus.fetchingNextPage
          | Dir.previous => IStatus.fetchingPreviousPage
        let mid : InfiniteDataState α π :=
          { cur with status := fetchingStatus, controller := some ctrlId }
        let after : InfiniteDataState α π :=
          match outcome with
          | FetchOutcome.ok newPage =>
            { mid with
              status := IStatus.success,
              pages := (match dir with
                        | Dir.next => mid.pages ++ [newPage]
                        | Dir.previous => newPage :: mid.pages),
              pageParams := (match dir with
                             | Dir.next => mid.pageParams ++ [pp]
                             | Dir.previous => pp :: mid.pageParams),
              timestamp := some now,
              controller := none }
          | FetchOutcome.err e =>
            { mid with status := IStatus.error, pages := [e], controller := none }
          | FetchOutcome.abortErr => mid
        { entry := some after, aborted := aborted', notifications := s.notifications + 1 }

def isErrOutcome : FetchOutcome α → Bool
  | FetchOutcome.err _ => true
  | _ => false

/-- A fetchNextPage/fetchPreviousPage call description: the direction, the
page-param resolver, the outcome its fetch will settle with, the fresh
controller id, and the clock value at resolution. -/
structure PageOp (α π : Type) where
  dir : Dir
  resolver : Option α → List α → Option π
  outcome : FetchOutcome α
  ctrlId : Nat
  now : Nat

def runPageOps (s : InfCacheSt α π) : List (PageOp α π) → InfCacheSt α π
  | [] => s
  | op :: ops => runPageOps (fetchInfinitePage op.dir op.resolver op.outcome op.ctrlId op.now s) ops

/-- The pages/pageParams length invariant of the claim, as an executable
check on the entry of a state. -/
def pagesLenInvB (s : InfCacheSt α π) : Bool :=
  match s.entry with
  | some st => st.pages.length == st.pageParams.length
  | none => true

/-- The sequential refetch loop of refetchInfiniteQuery
(src/infiniteCache.ts lines 130-134): await each page param in order,
accumulating responses, stopping at the first rejection. -/
inductive RefetchLoopResult (α : Type) where
  | succeeded (pages : List α)
  | failed (e : α)
  | abortedLoop
deriving DecidableEq, Repr

def refetchLoop (f : π → FetchOutcome α) : List π → List α → RefetchLoopResult α
  | [], acc => RefetchLoopResult.succeeded acc.reverse
  | p :: ps, acc =>
    match f p with
    | FetchOutcome.ok d => refetchLoop f ps (d :: acc)
    | FetchOutcome.err e => RefetchLoopResult.failed e
    | FetchOutcome.abortErr => RefetchLoopResult.abortedLoop

/-- The page params for which the refetch loop actually issues a fetch:
every param in order up to and including the first one whose fetch rejects. -/
def issuedParams (f : π → FetchOutcome α) : List π → List π
  | [] => []
  | p :: ps =>
    match f p with
    | FetchOutcome.ok _ => p :: issuedParams f ps
    | _ => [p]

/-- One run-to-completion execution of refetchInfiniteQuery
(src/infiniteCache.ts lines 113-155).  A missing entry or empty pageParams
is a no-op.  Otherwise the prior controller is aborted, the entry is set to
loading with a fresh controller, and every existing page param is refetched
sequentially in original order: on full success pages is replaced wholesale
by the responses (pageParams untouched, spread from the pre-loop state); on
a non-abort failure the entry is left in error status with pages equal to
the one-element error list; an abort rejection leaves the loading state.
The finally block dispatches one event. -/
def refetchInfiniteQuery (f : π → FetchOutcome α) (ctrlId now : Nat)
    (s : InfCacheSt α π) : InfCacheSt α π :=
  match s.entry with
  | none => s
  | some cur =>
    if cur.pageParams.length = 0 then s
    else
      let aborted' :=
        match cur.controller with
        | some c => c :: s.aborted
        | none => s.aborted
      let after : InfiniteDataState α π :=
        match refetchLoop f cur.pageParams [] with
        | RefetchLoopResult.succeeded pages =>
          { cur with status := IStatus.success, pages := pages,
                     timestamp := some now, controller := none }
        | RefetchLoopResult.failed e =>
          { cur with status := IStatus.error, pages := [e], controller := none }
        | RefetchLoopResult.abortedLoop =>
          { cur with status := IStatus.loading, controller := some ctrlId }
      { entry := some after, aborted := aborted', notifications := s.notifications + 1 }

/-! ## Universal infinite query: offset adapter and hasNextPage
(src/infinite-scroll/useUniversalInfiniteQuery.ts) -/

/-- An offset-pagination API response object with the optional fields the
offsetBased adapter inspects.  Absent fields model undefined. -/
structure OffsetResponse where
  totalPages : Option Int := none
  currentPage : Option Int := none
  hasMore : Option Bool := none
  page : Option Int := none
  data : Option (List Int) := none
deriving DecidableEq, Repr

/-- JS truthiness of an optional number: present and nonzero. -/
def truthyInt : Option Int → Bool
  | none => false
  | some n => n != 0

namespace PaginationAdapters

/-- PaginationAdapters.offsetBased().getNextPageParam
(src/infinite-scroll/useUniversalInfiniteQuery.ts lines 233-255), for object
responses.  The allResponses argument is accepted and ignored, as in the
source. -/
def getNextPageParam (r : OffsetResponse) (_allResponses : List OffsetResponse)
    (currentPageParam : Int) : Option Int :=
  if truthyInt r.totalPages && truthyInt r.currentPage then
    if r.currentPage.getD 0 < r.totalPages.getD 0 then some (r.currentPage.getD 0 + 1) else none
  else if r.hasMore.isSome then
    if r.hasMore.getD false then some (currentPageParam + 1) else none
  else if truthyInt r.page && truthyInt r.totalPages then
    if r.page.getD 0 < r.totalPages.getD 0 then some (r.page.getD 0 + 1) else none
  else
    if (r.data.getD []).length = 0 then none else some (currentPageParam + 1)

end PaginationAdapters

/-- The hasNextPage derivation of useUniversalInfiniteQuery (lines 50-57)
instantiated at the offset adapter: the last loaded page, if any, is fed to
the resolver together with all pages and the last page param (defaulted to 1
by the adapter parameter default when absent); with zero pages loaded the
result is false.  Object responses are always truthy in JS, so the source
truthiness test on lastPage coincides with presence. -/
def hasNextPage (pages : List OffsetResponse) (pageParams : List Int) : Bool :=
  match pages.getLast? with
  | none => false
  | some lastPage =>
    (PaginationAdapters.getNextPageParam lastPage pages ((pageParams.getLast?).getD 1)) != none

/-! ## Theorems -/

/-- Claim C3, counterexample.  A fetch for a key is superseded by a second
fetch, and the first attempt settles with an AbortError rejection.  Contrary
to the claim that no notification fires for the cancelled attempt, the
finally block of prefetchData dispatches a dataFetched event: the
notification count rises from 0 to 1, even though the cache entry itself is
left untouched by the cancelled attempt. -/
theorem claim3_counterexample :
    (prefetchDataResolve FetchOutcome.abortErr 7
      (prefetchDataStart false 1 6 (prefetchDataStart false 0 5
        ({ entry := none, aborted := [], notifications := 0 } : CacheSt Nat)))).notifications = 1
    ∧ (prefetchDataResolve FetchOutcome.abortErr 7
        (prefetchDataStart false 1 6 (prefetchDataStart false 0 5
          ({ entry := none, aborted := [], notifications := 0 } : CacheSt Nat)))).entry
      = (prefetchDataStart false 1 6 (prefetchDataStart false 0 5
          ({ entry := none, aborted := [], notifications := 0 } : CacheSt Nat))).entry := by
  decide

/-- Claim C3, amended.  A fetch attempt that fails because of its own
cancellation (AbortError rejection) writes no Error state and leaves the
cache entry and abort set exactly as they were, but the completion
notification is still dispatched once: the resolved state differs from the
prior state only in the notification count. -/
theorem claim3_amended {α : Type} (s : CacheSt α) (now : Nat) :
    prefetchDataResolve FetchOutcome.abortErr now s
      = { s with notifications := s.notifications + 1 } :=
  rfl

/-- Claim C4, counterexample.  Under the default staleTime of 5000 ms, an
entry fetched at t=0 is not yet stale at a read at exactly t=5000 (the test
is strict), contradicting stale for every read at t greater than or equal to
5000 ms; and an entry with no timestamp read at now=3 is not stale either
(the missing timestamp is treated as 0), contradicting always stale. -/
theorem claim4_counterexample :
    isStale (some 0) none 5000 = false ∧ isStale none none 3 = false := by
  decide

/-- Claim C4, amended.  Staleness is decided by
now - (timestamp or 0) > staleTime (default 5000): an entry fetched at t=0
under the default config is stale exactly for reads at t > 5000 ms (hence
fresh at t less than or equal to 5000 ms), and an entry with no timestamp is
stale exactly when now > staleTime, not unconditionally. -/
theorem claim4_amended :
    (∀ now : Int, isStale (some 0) none now = true ↔ 5000 < now)
    ∧ (∀ now : Int, isStale none none now = true ↔ 5000 < now)
    ∧ (∀ (ts staleTime : Option Int) (now : Int),
        isStale ts staleTime now = true ↔ now - ts.getD 0 > staleTime.getD defaultStaleTime) := by
  refine ⟨fun now => ?_, fun now => ?_, fun ts staleTime now => ?_⟩ <;>
    simp [isStale, defaultStaleTime]

/-- Claim C5.  RetryManager.execute with attempts=3, baseDelayMs=100,
exponential backoff, and a fetch function that always rejects: the error
callback is invoked once per failed attempt with attempt numbers 1, 2, 3;
the sleeps between attempts are exactly 100 ms then 200 ms, with no delay
after the terminal third failure; and the final surfaced result is the
third attempt's error. -/
theorem claim5_theorem {ε α : Type} (errs : Nat → ε) :
    retryExecute (fun i => (Except.error (errs i) : Except ε α)) 3 100 true
      = { result := Except.error (RetryErr.thrown (errs 2)),
          errorCalls := [(errs 0, 1), (errs 1, 2), (errs 2, 3)],
          delays := [100, 200] } :=
  rfl

/-- Claim C7, counterexample.  Starting a fetch on a fresh cache entry at
time 42 leaves the entry in loading status with timestamp already set to 42,
although no fetch has ever completed successfully: prefetchData writes
timestamp = Date.now() in its initial loading write, contradicting the claim
that timestamp is absent until the first success. -/
theorem claim7_counterexample :
    ((prefetchDataStart false 0 42
        ({ entry := none, aborted := [], notifications := 0 } : CacheSt Nat)).entry.map
      (fun st => (st.status, st.timestamp))) = some (Status.loading, some 42) := by
  decide

/-- Claim C7, amended.  The timestamp field is set to the current time both
at fetch initiation (the loading/isRefetching write) and at successful
completion; a non-cancellation fetch failure writes an error entry with no
timestamp at all. -/
theorem claim7_amended {α : Type} :
    (∀ (refetching : Bool) (ctrlId now : Nat) (s : CacheSt α),
      ((prefetchDataStart refetching ctrlId now s).entry.map DataState.timestamp)
        = some (some now))
    ∧ (∀ (d : α) (now : Nat) (s : CacheSt α),
      ((prefetchDataResolve (FetchOutcome.ok d) now s).entry.map DataState.timestamp)
        = some (some now))
    ∧ (∀ (e : α) (now : Nat) (s : CacheSt α),
      ((prefetchDataResolve (FetchOutcome.err e) now s).entry.map DataState.timestamp)
        = some none) :=
  ⟨fun _ _ _ _ => rfl, fun _ _ _ => rfl, fun _ _ _ => rfl⟩

/-- Concrete scenario state for claim C1: a fresh key, fetch A started at
time 5 with controller id 0, then fetch B started at time 6 with controller
id 1 while A is still loading. -/
def c1State : CacheSt Nat :=
  prefetchDataStart false 1 6 (prefetchDataStart false 0 5
    { entry := none, aborted := [], notifications := 0 })

/-- Claim C1, counterexample.  Fetch B is started while fetch A is still
loading for the same key; A then resolves successfully.  Contrary to the
claim, A's resolution both mutates the cache entry (overwriting B's loading
state with A's success payload, since no completion is checked for being
the current in-flight request) and dispatches a notification. -/
theorem claim1_counterexample :
    (prefetchDataResolve (FetchOutcome.ok 7) 9 c1State).entry ≠ c1State.entry
    ∧ (prefetchDataResolve (FetchOutcome.ok 7) 9 c1State).notifications
      ≠ c1State.notifications := by
  decide

/-- Claim C1, amended.  Starting a new fetch while an entry is loading
signals abort on the old controller, but resolutions are never checked for
currency: an AbortError rejection of the superseded request writes no state
yet still dispatches a notification, while a successful resolution of the
superseded request overwrites the cache entry with its own success state and
notifies, and a non-abort failing resolution overwrites the cache entry with
its own error state and notifies, regardless of whether the settling request
is still the current one. -/
theorem claim1_amended {α : Type} :
    (∀ (s : CacheSt α) (st : DataState α) (c : Nat) (refetching : Bool) (ctrlId now : Nat),
      s.entry = some st → st.status = Status.loading → st.controller = some c →
      c ∈ (prefetchDataStart refetching ctrlId now s).aborted)
    ∧ (∀ (s : CacheSt α) (now : Nat),
      prefetchDataResolve FetchOutcome.abortErr now s
        = { s with notifications := s.notifications + 1 })
    ∧ (∀ (s : CacheSt α) (d : α) (now : Nat),
      prefetchDataResolve (FetchOutcome.ok d) now s
        = { s with entry := some { status := Status.success, payload := some d,
                                   controller := none, timestamp := some now },
                   notifications := s.notifications + 1 })
    ∧ (∀ (s : CacheSt α) (e : α) (now : Nat),
      prefetchDataResolve (FetchOutcome.err e) now s
        = { s with entry := some { status := Status.error, payload := some e,
                                   controller := none, timestamp := none },
                   notifications := s.notifications + 1 }) := by
  refine ⟨fun s st c refetching ctrlId now h1 h2 h3 => ?_, fun s now => rfl,
          fun s d now => rfl, fun s e now => rfl⟩
  simp [prefetchDataStart, h1, h3, h2]

/-- Claim C1, witness for the amended theorem: in the concrete scenario the
superseding start marks controller 0 aborted, and an AbortError resolution
leaves everything but the notification count unchanged. -/
theorem claim1_witness :
    0 ∈ (prefetchDataStart false 1 6 (prefetchDataStart false 0 5
          ({ entry := none, aborted := [], notifications := 0 } : CacheSt Nat))).aborted
    ∧ prefetchDataResolve FetchOutcome.abortErr 9 c1State
      = { c1State with notifications := c1State.notifications + 1 } :=
  ⟨claim1_amended.1 (prefetchDataStart false 0 5
      { entry := none, aborted := [], notifications := 0 })
      { status := Status.loading, payload := none, controller := some 0, timestamp := some 5 }
      0 false 1 6 rfl rfl rfl,
   claim1_amended.2.1 c1State 9⟩

/-- The optimistic-update scenario objects: a Success entry holding
payload with likes = 1, and the patch with likes = 2. -/
def likesOne : JsObj := [("likes", 1)]

def likesTwo : JsObj := [("likes", 2)]

def optimisticState : CacheSt JsObj :=
  { entry := some { status := Status.success, payload := some likesOne },
    aborted := [], notifications := 0 }

/-- Claim C6.  On a Success entry with payload likes = 1, applying an
optimistic update with patch likes = 2 makes an immediate read (the data
field of formatDataResponse) return the merged object with likes = 2; after
the mutation function rejects, a subsequent read returns the original
payload with likes = 1 again; and a rejection can never leave an entry in
Error status. -/
theorem claim6_theorem :
    ((updateOptimisticallyApply likesTwo optimisticState).entry.map formatDataResponseData)
      = some (some likesTwo)
    ∧ ((updateOptimisticallyRejected
          (updateOptimisticallyApply likesTwo optimisticState)).entry.map formatDataResponseData)
      = some (some likesOne)
    ∧ (∀ s : CacheSt JsObj,
        ((updateOptimisticallyRejected s).entry.map DataState.status) ≠ some Status.error) := by
  refine ⟨by decide, by decide, fun s => ?_⟩
  cases h : s.entry <;> simp [updateOptimisticallyRejected, h]

/-- Claim C10.  For an entry in Success status when an optimistic update is
applied, the cache state after the mutation settles is literally the same
whether the mutation fulfilled or rejected, and in that settled state
optimisticData is cleared, the status is success, and the stored payload is
the pre-mutation payload: the mutation's outcome is unobservable in the
cache state. -/
theorem claim10_theorem (s : CacheSt JsObj) (st : DataState JsObj) (patch : JsObj)
    (h1 : s.entry = some st) (h2 : st.status = Status.success) :
    updateOptimisticallyFulfilled (updateOptimisticallyApply patch s)
      = updateOptimisticallyRejected (updateOptimisticallyApply patch s)
    ∧ (updateOptimisticallyFulfilled (updateOptimisticallyApply patch s)).entry
      = some { st with optimisticData := none, status := Status.success } := by
  constructor
  · rfl
  · simp [updateOptimisticallyApply, h1, h2, updateOptimisticallyFulfilled]

/-- Claim C10, witness: the concrete Success entry with likes = 1 and patch
likes = 2, evaluated through the theorem. -/
theorem claim10_witness :
    updateOptimisticallyFulfilled (updateOptimisticallyApply likesTwo optimisticState)
      = updateOptimisticallyRejected (updateOptimisticallyApply likesTwo optimisticState)
    ∧ (updateOptimisticallyFulfilled (updateOptimisticallyApply likesTwo optimisticState)).entry
      = some { status := Status.success, payload := some likesOne, optimisticData := none } :=
  claim10_theorem optimisticState
    { status := Status.success, payload := some likesOne } likesTwo rfl rfl

/-- Helper: a single fetchInfinitePage execution whose outcome is not a
non-cancellation error preserves the pages/pageParams length equality. -/
theorem fetchInfinitePage_len {α π : Type} (dir : Dir) (res : Option α → List α → Option π)
    (outcome : FetchOutcome α) (ctrlId now : Nat) (s : InfCacheSt α π)
    (hout : isErrOutcome outcome = false) (h : pagesLenInvB s = true) :
    pagesLenInvB (fetchInfinitePage dir res outcome ctrlId now s) = true := by
  cases hs : s.entry with
  | none => simpa [fetchInfinitePage, hs] using h
  | some cur =>
    have hcur : cur.pages.length = cur.pageParams.length := by
      simpa [pagesLenInvB, hs] using h
    by_cases hg : cur.status = IStatus.fetchingNextPage ∨ cur.status = IStatus.fetchingPreviousPage
    · simpa [fetchInfinitePage, hs, hg] using h
    · cases dir with
      | next =>
        cases hres : res cur.pages.getLast? cur.pages with
        | none => simpa [fetchInfinitePage, hs, hg, hres] using h
        | some pp =>
          cases outcome with
          | ok d => simp [fetchInfinitePage, hs, hg, hres, pagesLenInvB, hcur]
          | err e => simp [isErrOutcome] at hout
          | abortErr => simp [fetchInfinitePage, hs, hg, hres, pagesLenInvB, hcur]
      | previous =>
        cases hres : res cur.pages.head? cur.pages with
        | none => simpa [fetchInfinitePage, hs, hg, hres] using h
        | some pp =>
          cases outcome with
          | ok d => simp [fetchInfinitePage, hs, hg, hres, pagesLenInvB, hcur]
          | err e => simp [isErrOutcome] at hout
          | abortErr => simp [fetchInfinitePage, hs, hg, hres, pagesLenInvB, hcur]

/-- Claim C2, counterexample.  A pagination entry holds two pages with two
page params; a fetchNext whose fetch rejects with a non-cancellation error
replaces pages wholesale with the one-element error list while leaving
pageParams untouched, so pages.length = 1 while pageParams.length = 2 and
the claimed invariant fails after a failing operation. -/
theorem claim2_counterexample :
    pagesLenInvB (fetchInfinitePage Dir.next (fun _ _ => some 3) (FetchOutcome.err 99) 1 7
      ({ entry := some { status := IStatus.success, pages := [10, 20], pageParams := [1, 2] },
         aborted := [], notifications := 0 } : InfCacheSt Nat Nat)) = false
    ∧ ((fetchInfinitePage Dir.next (fun _ _ => some 3) (FetchOutcome.err 99) 1 7
        ({ entry := some { status := IStatus.success, pages := [10, 20], pageParams := [1, 2] },
           aborted := [], notifications := 0 } : InfCacheSt Nat Nat)).entry.map
        (fun st => (st.pages, st.pageParams))) = some ([99], [1, 2]) := by
  decide

/-- Claim C2, amended.  After any sequence of fetchNext/fetchPrevious
operations none of which fails with a non-cancellation error,
pages.length = pageParams.length is preserved; a successful next fetch
appends the page and its param at the tail of both sequences and a
successful previous fetch at the head, with matching indices, so flattening
pages preserves page-load order along the forward axis.  (A non-cancellation
failure instead replaces pages with the one-element error list while leaving
pageParams unchanged, breaking the equality whenever pageParams.length is
not 1.) -/
theorem claim2_amended {α π : Type} :
    (∀ (s : InfCacheSt α π) (ops : List (PageOp α π)),
      (ops.all fun op => !isErrOutcome op.outcome) = true →
      pagesLenInvB s = true → pagesLenInvB (runPageOps s ops) = true)
    ∧ (∀ (s : InfCacheSt α π) (cur : InfiniteDataState α π)
        (res : Option α → List α → Option π) (d : α) (pp : π) (ctrlId now : Nat),
      s.entry = some cur →
      cur.status ≠ IStatus.fetchingNextPage → cur.status ≠ IStatus.fetchingPreviousPage →
      res cur.pages.getLast? cur.pages = some pp →
      (fetchInfinitePage Dir.next res (FetchOutcome.ok d) ctrlId now s).entry
        = some { cur with status := IStatus.success, pages := cur.pages ++ [d],
                          pageParams := cur.pageParams ++ [pp], timestamp := some now,
                          controller := none })
    ∧ (∀ (s : InfCacheSt α π) (cur : InfiniteDataState α π)
        (res : Option α → List α → Option π) (d : α) (pp : π) (ctrlId now : Nat),
      s.entry = some cur →
      cur.status ≠ IStatus.fetchingNextPage → cur.status ≠ IStatus.fetchingPreviousPage →
      res cur.pages.head? cur.pages = some pp →
      (fetchInfinitePage Dir.previous res (FetchOutcome.ok d) ctrlId now s).entry
        = some { cur with status := IStatus.success, pages := d :: cur.pages,
                          pageParams := pp :: cur.pageParams, timestamp := some now,
                          controller := none }) := by
  refine ⟨fun s ops hall hinv => ?_,
          fun s cur res d pp ctrlId now h1 hg1 hg2 hres => ?_,
          fun s cur res d pp ctrlId now h1 hg1 hg2 hres => ?_⟩
  · induction ops generalizing s with
    | nil => exact hinv
    | cons op ops ih =>
      rw [List.all_cons, Bool.and_eq_true] at hall
      exact ih _ hall.2
        (fetchInfinitePage_len op.dir op.resolver op.outcome op.ctrlId op.now s
          (by simpa using hall.1) hinv)
  · simp [fetchInfinitePage, h1, hg1, hg2, hres]
  · simp [fetchInfinitePage, h1, hg1, hg2, hres]

/-- Concrete scenario for the claim C2 witness: two successful page fetches
(one next, one previous) and one superseded (aborted) fetch, starting from
an entry holding two pages and two params. -/
def c2State : InfCacheSt Nat Nat :=
  { entry := some { status := IStatus.success, pages := [10, 20], pageParams := [1, 2] },
    aborted := [], notifications := 0 }

def c2Ops : List (PageOp Nat Nat) :=
  [{ dir := Dir.next, resolver := fun _ _ => some 3, outcome := FetchOutcome.ok 30,
     ctrlId := 1, now := 7 },
   { dir := Dir.previous, resolver := fun _ _ => some 0, outcome := FetchOutcome.abortErr,
     ctrlId := 2, now := 8 }]

/-- Claim C2, witness for the amended theorem, evaluated on the concrete
scenario. -/
theorem claim2_witness : pagesLenInvB (runPageOps c2State c2Ops) = true :=
  claim2_amended.1 c2State c2Ops (by rfl) (by rfl)

/-- Helper: the refetch loop over a fetch function that always fulfills
collects exactly the responses for every param, in order. -/
theorem refetchLoop_ok {α π : Type} (g : π → α) (ps : List π) (acc : List α) :
    refetchLoop (fun p => FetchOutcome.ok (g p)) ps acc
      = RefetchLoopResult.succeeded (acc.reverse ++ ps.map g) := by
  induction ps generalizing acc with
  | nil => simp [refetchLoop]
  | cons p ps ih => simp [refetchLoop, ih]

/-- Helper: with a fetch function that always fulfills, the refetch loop
issues a fetch for every param. -/
theorem issuedParams_ok {α π : Type} (g : π → α) (ps : List π) :
    issuedParams (fun p => FetchOutcome.ok (g p)) ps = ps := by
  induction ps with
  | nil => rfl
  | cons p ps ih => simp [issuedParams, ih]

/-- Claim C8.  For a pagination entry with at least one page param,
refetchInfiniteQuery issues a fetch for every existing page param
sequentially in the original order; when every page fetch fulfills, pages is
replaced wholesale by the fresh responses in order while pageParams, and the
rest of the entry apart from status/timestamp/controller, are unchanged and
the status is success; and whenever the sequential loop stops with a
non-cancellation failure, the entry is left in Error status. -/
theorem claim8_theorem {α π : Type} (g : π → α) (f2 : π → FetchOutcome α) (e : α)
    (ctrlId now : Nat) (s : InfCacheSt α π) (cur : InfiniteDataState α π)
    (h1 : s.entry = some cur) (h2 : cur.pageParams ≠ []) :
    (refetchInfiniteQuery (fun p => FetchOutcome.ok (g p)) ctrlId now s).entry
      = some { cur with status := IStatus.success, pages := cur.pageParams.map g,
                        timestamp := some now, controller := none }
    ∧ issuedParams (fun p => FetchOutcome.ok (g p)) cur.pageParams = cur.pageParams
    ∧ (refetchLoop f2 cur.pageParams [] = RefetchLoopResult.failed e →
        ((refetchInfiniteQuery f2 ctrlId now s).entry.map InfiniteDataState.status)
          = some IStatus.error) := by
  have hlen : ¬ cur.pageParams.length = 0 := by
    simpa [List.length_eq_zero] using h2
  refine ⟨?_, issuedParams_ok g cur.pageParams, fun hf => ?_⟩
  · simp [refetchInfiniteQuery, h1, hlen, refetchLoop_ok]
  · simp [refetchInfiniteQuery, h1, hlen, hf]

/-- Claim C8, witness: a concrete entry with page params 1 and 2, refetched
with a fetch function adding 100 to the param, and a failing refetch whose
loop rejects on its first param. -/
theorem claim8_witness :
    (refetchInfiniteQuery (fun p => FetchOutcome.ok (p + 100)) 9 77 c2State).entry
      = some { status := IStatus.success, pages := [101, 102], pageParams := [1, 2],
               timestamp := some 77, controller := none }
    ∧ issuedParams (fun p => FetchOutcome.ok (p + 100)) [1, 2] = [1, 2]
    ∧ (refetchLoop (fun _ => FetchOutcome.err 5) [1, 2] [] = RefetchLoopResult.failed 5 →
        ((refetchInfiniteQuery (fun _ => FetchOutcome.err 5) 9 77 c2State).entry.map
          InfiniteDataState.status) = some IStatus.error) :=
  claim8_theorem (fun p => p + 100) (fun _ => FetchOutcome.err 5) 5 9 77 c2State
    { status := IStatus.success, pages := [10, 20], pageParams := [1, 2] }
    rfl (by decide)

/-- Claim C9.  hasNextPage is false with zero pages loaded; with at least
one page it equals whether the offset adapter resolver, applied to the last
page, all pages, and the last page param (defaulted to 1 when absent),
returns something other than the undefined sentinel; the offset adapter
maps a response with hasMore true at currentPageParam 1 to next param 2,
maps hasMore false to the sentinel, and hasNextPage on such a last page is
false. -/
theorem claim9_theorem :
    (∀ pageParams : List Int, hasNextPage [] pageParams = false)
    ∧ (∀ (ps : List OffsetResponse) (lastResp : OffsetResponse) (pageParams : List Int),
        hasNextPage (ps ++ [lastResp]) pageParams
          = (PaginationAdapters.getNextPageParam lastResp (ps ++ [lastResp])
              ((pageParams.getLast?).getD 1)).isSome)
    ∧ PaginationAdapters.getNextPageParam { hasMore := some true } [] 1 = some 2
    ∧ PaginationAdapters.getNextPageParam { hasMore := some false } [] 1 = none
    ∧ hasNextPage [{ hasMore := some false }] [1] = false := by
  refine ⟨fun pageParams => rfl, fun ps lastResp pageParams => ?_, by decide, by decide, by decide⟩
  rw [hasNextPage, List.getLast?_concat]
  show (PaginationAdapters.getNextPageParam lastResp (ps ++ [lastResp])
      ((pageParams.getLast?).getD 1) != none) = _
  cases PaginationAdapters.getNextPageParam lastResp (ps ++ [lastResp])
      ((pageParams.getLast?).getD 1) <;> rfl

end ReactDataCache
